import Mathlib

/-! Shallow embedding of the `solplay_402` Solana program (Rust/Anchor sources under
`programs/solplay_402/src/`).  Machine integers are modelled as `Nat` with the
Rust widths made explicit: a `u64` value is a `Nat` that the checked operations
keep below `2^64`, an unchecked `as u64` cast is `% 2^64`, and so on.  Each
instruction handler is a function from the program state it touches to
`Except StreamingError ProgState`; an `.error` result models the aborted
transaction, in which no account mutation and no token transfer persists
(Solana transactions are atomic).  Account-identity wiring (PDA seeds, signer
checks, mint equality) is outside the state model; the Anchor `constraint`
checks that inspect modelled state (such as `video.is_active`) are kept, and
they run before the handler body, as in Anchor.
-/

namespace Solplay

/-! Section: Constants (`constants.rs`) -/

def BASIS_POINTS : Nat := 10000

def MAX_CHUNKS_PER_APPROVAL : Nat := 1000

def MAX_TOTAL_CHUNKS : Nat := 10000

def SESSION_EXPIRY_DURATION : Int := 24 * 60 * 60

def SESSION_INACTIVITY_DURATION : Int := 60 * 60

/-- Size of the `u32` range, i.e. `2^32`. -/
def U32_SIZE : Nat := 2 ^ 32

/-- Size of the `u64` range, i.e. `2^64`. -/
def U64_SIZE : Nat := 2 ^ 64

/-- Size of the `u128` range, i.e. `2^128`. -/
def U128_SIZE : Nat := 2 ^ 128

/-! Section: Errors (`errors.rs`), restricted to the codes the modelled handlers can
return.  `TokenTransferFailed` stands for a failure raised by the SPL token
program itself during a CPI (insufficient funds or delegated allowance); it is
not a `StreamingError` in the Rust source but aborts the transaction the same
way. -/

inductive StreamingError where
  | VideoNotActive
  | InvalidChunkIndex
  | InsufficientApproval
  | OutOfSequenceChunk
  | SessionExpired
  | SessionInactive
  | PriceChangedSinceApproval
  | MaxChunksPerApprovalExceeded
  | ArithmeticOverflow
  | InsufficientBalance
  | InvalidChunkCount
  | SettlementTooOld
  | SettlementInFuture
  | SettlementExceedsApproval
  | InsufficientBalanceForApproval
  | TokenTransferFailed
  deriving Repr, DecidableEq

/-! Section: Checked arithmetic (Rust `checked_add` / `checked_mul` / `checked_sub`
/ `u64::try_from`, with `.ok_or(ArithmeticOverflow)` / `.map_err(...)`). -/

def checked_add_u32 (a b : Nat) : Except StreamingError Nat :=
  if a + b < U32_SIZE then .ok (a + b) else .error .ArithmeticOverflow

def checked_add_u64 (a b : Nat) : Except StreamingError Nat :=
  if a + b < U64_SIZE then .ok (a + b) else .error .ArithmeticOverflow

def checked_mul_u128 (a b : Nat) : Except StreamingError Nat :=
  if a * b < U128_SIZE then .ok (a * b) else .error .ArithmeticOverflow

def checked_sub_u64 (a b : Nat) : Except StreamingError Nat :=
  if b ≤ a then .ok (a - b) else .error .ArithmeticOverflow

def u64_try_from (a : Nat) : Except StreamingError Nat :=
  if a < U64_SIZE then .ok a else .error .ArithmeticOverflow

/-! Section: State accounts (`state.rs`).  Pubkey fields and `bump` are identity
wiring and are omitted; string metadata of `Video` is not read by the modelled
handlers and is omitted. -/

structure Platform where
  platform_fee_basis_points : Nat  -- u16
  min_price_per_chunk : Nat        -- u64
  total_videos : Nat               -- u64
  total_sessions : Nat             -- u64
  total_revenue : Nat              -- u64
  deriving Repr, DecidableEq

/-- Rust `Platform::calculate_platform_fee`:
`(amount as u128).checked_mul(bps as u128)?.checked_div(BASIS_POINTS as u128)?`
followed by `Ok(fee as u64)`.  The final cast is Rust `as`, i.e. truncation
modulo `2^64`, not a checked narrow. -/
def Platform.calculate_platform_fee (p : Platform) (amount : Nat) :
    Except StreamingError Nat :=
  if amount * p.platform_fee_basis_points < U128_SIZE then
    .ok (amount * p.platform_fee_basis_points / BASIS_POINTS % U64_SIZE)
  else
    .error .ArithmeticOverflow

structure Video where
  total_chunks : Nat        -- u32
  price_per_chunk : Nat     -- u64
  is_active : Bool
  total_sessions : Nat      -- u64
  total_chunks_served : Nat -- u64
  deriving Repr, DecidableEq

structure ViewerSession where
  max_approved_chunks : Nat          -- u32
  chunks_consumed : Nat              -- u32
  total_spent : Nat                  -- u64
  approved_price_per_chunk : Nat     -- u64
  last_paid_chunk_index : Option Nat -- Option<u32>
  session_start : Int                -- i64
  last_activity : Int                -- i64
  deriving Repr, DecidableEq

def ViewerSession.is_expired (s : ViewerSession) (current_time : Int) : Bool :=
  current_time - s.session_start > SESSION_EXPIRY_DURATION

def ViewerSession.is_inactive (s : ViewerSession) (current_time : Int) : Bool :=
  current_time - s.last_activity > SESSION_INACTIVITY_DURATION

def ViewerSession.has_approval_remaining (s : ViewerSession) : Bool :=
  s.chunks_consumed < s.max_approved_chunks

def ViewerSession.is_next_chunk_sequential (s : ViewerSession) (chunk_index : Nat) : Bool :=
  match s.last_paid_chunk_index with
  | none => chunk_index == 0
  | some last => chunk_index == last + 1

/-- Rust `ViewerSession::update_activity`.  `chunks_consumed += 1` is a plain `u32`
add in Rust; it is only reached under `has_approval_remaining`, so with
`chunks_consumed < max_approved_chunks < 2^32` it cannot wrap, and plain `Nat`
addition is faithful there. -/
def ViewerSession.update_activity (s : ViewerSession) (current_time : Int)
    (chunk_index : Nat) : ViewerSession :=
  { s with
    last_activity := current_time
    chunks_consumed := s.chunks_consumed + 1
    last_paid_chunk_index := some chunk_index }

structure CreatorEarnings where
  total_earned : Nat      -- u64
  total_sessions : Nat    -- u64
  total_chunks_sold : Nat -- u64
  deriving Repr, DecidableEq

/-! Section: Combined instruction state.  `viewer_token_amount`,
`creator_token_amount`, `platform_token_amount` are the SPL token-account
balances the handlers read and transfer between; `delegated_amount` is the
allowance the viewer's token account has granted to the platform PDA
(`approve_checked` replaces it, delegated transfers decrement it). -/

structure ProgState where
  viewer_session : ViewerSession
  video : Video
  creator_earnings : CreatorEarnings
  platform : Platform
  viewer_token_amount : Nat   -- u64
  creator_token_amount : Nat  -- u64
  platform_token_amount : Nat -- u64
  delegated_amount : Nat      -- u64
  deriving Repr, DecidableEq

/-- SPL `token::transfer` executed under the platform's delegated authority
over the viewer's account: fails (aborting the transaction) when the source
balance or the remaining delegated allowance is too small, otherwise moves
`amt` and burns that much allowance.  Returns (new source balance, new
destination balance, new allowance). -/
def spl_transfer_delegated (source dest delegated amt : Nat) :
    Except StreamingError (Nat × Nat × Nat) :=
  if amt ≤ source ∧ amt ≤ delegated then
    .ok (source - amt, dest + amt, delegated - amt)
  else
    .error .TokenTransferFailed

/-- Anchor's `require!(cond, err)`: continue when `cond` holds, abort with
`err` otherwise. -/
def require (cond : Prop) [Decidable cond] (err : StreamingError) :
    Except StreamingError Unit :=
  if cond then .ok () else .error err

/-- The conditional fee leg shared by both settlement paths:
`if platform_fee > 0 { token::transfer(viewer -> platform, fee) }`.
Arguments: viewer balance, platform balance, delegated allowance, fee. -/
def transfer_platform_fee (vb pb d fee : Nat) :
    Except StreamingError (Nat × Nat × Nat) :=
  if 0 < fee then
    spl_transfer_delegated vb pb d fee
  else
    pure (vb, pb, d)

/-- The shared "track unique sessions" block: on the session's first-ever
consumption both `video.total_sessions` and `creator_earnings.total_sessions`
are bumped with checked adds; otherwise they are left alone. -/
def bump_session_totals (cond : Prop) [Decidable cond] (video_sessions earnings_sessions : Nat) :
    Except StreamingError (Nat × Nat) :=
  if cond then do
    let a ← checked_add_u64 video_sessions 1
    let b ← checked_add_u64 earnings_sessions 1
    pure (a, b)
  else
    pure (video_sessions, earnings_sessions)

/-! Section: `instructions/pay_for_chunk.rs` -/

/-- Handler `pay_for_chunk`.  The seven `require!` validations appear in source order
(after the Anchor `video.is_active` constraint); then the fee split, the two
delegated transfers, and the state updates. -/
def pay_for_chunk (st : ProgState) (chunk_index : Nat) (now : Int) :
    Except StreamingError ProgState := do
  require (st.video.is_active = true) .VideoNotActive
  require (st.viewer_session.is_expired now = false) .SessionExpired
  require (st.viewer_session.is_inactive now = false) .SessionInactive
  require (chunk_index < st.video.total_chunks) .InvalidChunkIndex
  require (st.viewer_session.has_approval_remaining = true) .InsufficientApproval
  require (st.viewer_session.is_next_chunk_sequential chunk_index = true)
    .OutOfSequenceChunk
  require (st.video.price_per_chunk = st.viewer_session.approved_price_per_chunk)
    .PriceChangedSinceApproval
  let chunk_price := st.video.price_per_chunk
  require (chunk_price ≤ st.viewer_token_amount) .InsufficientBalance
  let platform_fee ← st.platform.calculate_platform_fee chunk_price
  let creator_amount ← checked_sub_u64 chunk_price platform_fee
  let (vb1, cb1, d1) ← spl_transfer_delegated st.viewer_token_amount
    st.creator_token_amount st.delegated_amount creator_amount
  let (vb2, pb2, d2) ← transfer_platform_fee vb1 st.platform_token_amount d1 platform_fee
  let vs1 := st.viewer_session.update_activity now chunk_index
  let new_total_spent ← checked_add_u64 vs1.total_spent chunk_price
  let new_chunks_served ← checked_add_u64 st.video.total_chunks_served 1
  let new_total_earned ← checked_add_u64 st.creator_earnings.total_earned creator_amount
  let new_chunks_sold ← checked_add_u64 st.creator_earnings.total_chunks_sold 1
  let (new_video_sessions, new_earnings_sessions) ←
    bump_session_totals (vs1.chunks_consumed = 1)
      st.video.total_sessions st.creator_earnings.total_sessions
  let new_total_revenue ← checked_add_u64 st.platform.total_revenue platform_fee
  pure { st with
    viewer_session := { vs1 with total_spent := new_total_spent }
    video := { st.video with
      total_chunks_served := new_chunks_served
      total_sessions := new_video_sessions }
    creator_earnings := { st.creator_earnings with
      total_earned := new_total_earned
      total_chunks_sold := new_chunks_sold
      total_sessions := new_earnings_sessions }
    platform := { st.platform with total_revenue := new_total_revenue }
    viewer_token_amount := vb2
    creator_token_amount := cb1
    platform_token_amount := pb2
    delegated_amount := d2 }

/-! Section: `instructions/settle_session.rs` -/

/-- Handler `settle_session`.  Validations in source order: positive chunk count,
expiry (inactivity deliberately not checked), timestamp window, approval
ceiling with a checked `u32` add, batch priced at the session's locked
`approved_price_per_chunk` in u128 with a checked narrow, balance; then
transfers and the bulk state updates. -/
def settle_session (st : ProgState) (chunk_count : Nat)
    (settlement_timestamp now : Int) : Except StreamingError ProgState := do
  require (st.video.is_active = true) .VideoNotActive
  require (0 < chunk_count) .InvalidChunkCount
  require (st.viewer_session.is_expired now = false) .SessionExpired
  require (st.viewer_session.session_start ≤ settlement_timestamp) .SettlementTooOld
  require (settlement_timestamp ≤ now) .SettlementInFuture
  let new_total_chunks ← checked_add_u32 st.viewer_session.chunks_consumed chunk_count
  require (new_total_chunks ≤ st.viewer_session.max_approved_chunks)
    .SettlementExceedsApproval
  let price_per_chunk := st.viewer_session.approved_price_per_chunk
  let total_payment ← checked_mul_u128 price_per_chunk chunk_count
  let total_payment_u64 ← u64_try_from total_payment
  require (total_payment_u64 ≤ st.viewer_token_amount) .InsufficientBalance
  let platform_fee ← st.platform.calculate_platform_fee total_payment_u64
  let creator_amount ← checked_sub_u64 total_payment_u64 platform_fee
  let (vb1, cb1, d1) ← spl_transfer_delegated st.viewer_token_amount
    st.creator_token_amount st.delegated_amount creator_amount
  let (vb2, pb2, d2) ← transfer_platform_fee vb1 st.platform_token_amount d1 platform_fee
  let new_total_spent ← checked_add_u64 st.viewer_session.total_spent total_payment_u64
  let new_chunks_served ← checked_add_u64 st.video.total_chunks_served chunk_count
  let new_total_earned ← checked_add_u64 st.creator_earnings.total_earned creator_amount
  let new_chunks_sold ← checked_add_u64 st.creator_earnings.total_chunks_sold chunk_count
  let (new_video_sessions, new_earnings_sessions) ←
    bump_session_totals (new_total_chunks = chunk_count)
      st.video.total_sessions st.creator_earnings.total_sessions
  let new_total_revenue ← checked_add_u64 st.platform.total_revenue platform_fee
  pure { st with
    viewer_session := { st.viewer_session with
      chunks_consumed := new_total_chunks
      total_spent := new_total_spent
      last_activity := now }
    video := { st.video with
      total_chunks_served := new_chunks_served
      total_sessions := new_video_sessions }
    creator_earnings := { st.creator_earnings with
      total_earned := new_total_earned
      total_chunks_sold := new_chunks_sold
      total_sessions := new_earnings_sessions }
    platform := { st.platform with total_revenue := new_total_revenue }
    viewer_token_amount := vb2
    creator_token_amount := cb1
    platform_token_amount := pb2
    delegated_amount := d2 }

/-! Section: `instructions/approve_delegate.rs` -/

/-- Handler `approve_streaming_delegate`.  A session is new when `session_start == 0`
(`init_if_needed` zero-initialises the account).  In the re-approval branch,
`max_approved_chunks - chunks_consumed` is an unchecked `u32` subtraction in
Rust; `Nat` subtraction agrees with it whenever `chunks_consumed` does not
exceed the updated ceiling, which the `consumed ≤ ceiling` invariant
guarantees.  The final `approve_checked` CPI REPLACES the delegated amount
with the freshly computed total outstanding obligation. -/
def approve_streaming_delegate (st : ProgState) (max_chunks : Nat) (now : Int) :
    Except StreamingError ProgState := do
  require (st.video.is_active = true) .VideoNotActive
  require (0 < max_chunks ∧ max_chunks ≤ MAX_CHUNKS_PER_APPROVAL)
    .MaxChunksPerApprovalExceeded
  let (vs1, approval_amount_u128, new_platform_sessions) ←
    if st.viewer_session.session_start = 0 then do
      -- New session: initialize every field, approve price * max_chunks.
      let a ← checked_mul_u128 st.video.price_per_chunk max_chunks
      let ps ← checked_add_u64 st.platform.total_sessions 1
      pure (({ max_approved_chunks := max_chunks
               chunks_consumed := 0
               total_spent := 0
               approved_price_per_chunk := st.video.price_per_chunk
               last_paid_chunk_index := none
               session_start := now
               last_activity := now } : ViewerSession), a, ps)
    else do
      -- Re-approval: raise the ceiling first, then delegate the TOTAL
      -- remaining obligation (approve_checked replaces, never adds).
      require (st.viewer_session.is_expired now = false) .SessionExpired
      require (st.viewer_session.is_inactive now = false) .SessionInactive
      let new_max ← checked_add_u32 st.viewer_session.max_approved_chunks max_chunks
      let a ← checked_mul_u128 st.video.price_per_chunk
        (new_max - st.viewer_session.chunks_consumed)
      pure (({ st.viewer_session with
               max_approved_chunks := new_max
               last_activity := now } : ViewerSession), a,
            st.platform.total_sessions)
  let approval_amount ← u64_try_from approval_amount_u128
  require (approval_amount ≤ st.viewer_token_amount) .InsufficientBalanceForApproval
  pure { st with
    viewer_session := vs1
    platform := { st.platform with total_sessions := new_platform_sessions }
    delegated_amount := approval_amount }

/-! Section: `instructions/close_session.rs` -/

/-- Handler `close_viewer_session`.  The handler body only reads the session to emit
the closure event and relies on the `close = viewer` constraint to reclaim
rent; it mutates no field of the session, video, earnings, platform or token
accounts, so the surviving state (and the session snapshot at emission time)
equals the pre-state. -/
def close_viewer_session (st : ProgState) : Except StreamingError ProgState :=
  .ok st


deriving instance DecidableEq for Except

/-! Section: Invariant and concrete states used by the claim theorems -/

/-- The central session invariant: consumption never exceeds the authorized
ceiling (`chunks_consumed <= max_approved_chunks`). -/
def ConsumedLeCeiling (st : ProgState) : Prop :=
  st.viewer_session.chunks_consumed ≤ st.viewer_session.max_approved_chunks

instance (st : ProgState) : Decidable (ConsumedLeCeiling st) :=
  inferInstanceAs (Decidable (_ ≤ _))

/-- A concrete configuration for witnesses: fee rate 250 bps, an active
100-chunk video at price 1000, a fresh (zero-initialised) session, and a
viewer holding 1,000,000 tokens. -/
def baseState : ProgState :=
  { viewer_session :=
      { max_approved_chunks := 0, chunks_consumed := 0, total_spent := 0
        approved_price_per_chunk := 0, last_paid_chunk_index := none
        session_start := 0, last_activity := 0 }
    video :=
      { total_chunks := 100, price_per_chunk := 1000, is_active := true
        total_sessions := 0, total_chunks_served := 0 }
    creator_earnings := { total_earned := 0, total_sessions := 0, total_chunks_sold := 0 }
    platform :=
      { platform_fee_basis_points := 250, min_price_per_chunk := 1000
        total_videos := 1, total_sessions := 0, total_revenue := 0 }
    viewer_token_amount := 1000000
    creator_token_amount := 0
    platform_token_amount := 0
    delegated_amount := 0 }

/-- The state `approve_streaming_delegate baseState 10 100` produces: an open
session with ceiling 10 at locked price 1000 and a 10,000-token delegation. -/
def openState : ProgState :=
  { baseState with
    viewer_session :=
      { max_approved_chunks := 10, chunks_consumed := 0, total_spent := 0
        approved_price_per_chunk := 1000, last_paid_chunk_index := none
        session_start := 100, last_activity := 100 }
    platform := { baseState.platform with total_sessions := 1 }
    delegated_amount := 10000 }

/-- The state `pay_for_chunk openState 0 200` produces. -/
def payResult : ProgState :=
  { viewer_session :=
      { max_approved_chunks := 10, chunks_consumed := 1, total_spent := 1000
        approved_price_per_chunk := 1000, last_paid_chunk_index := some 0
        session_start := 100, last_activity := 200 }
    video :=
      { total_chunks := 100, price_per_chunk := 1000, is_active := true
        total_sessions := 1, total_chunks_served := 1 }
    creator_earnings := { total_earned := 975, total_sessions := 1, total_chunks_sold := 1 }
    platform :=
      { platform_fee_basis_points := 250, min_price_per_chunk := 1000
        total_videos := 1, total_sessions := 1, total_revenue := 25 }
    viewer_token_amount := 999000
    creator_token_amount := 975
    platform_token_amount := 25
    delegated_amount := 9000 }

/-- The state `settle_session openState 3 150 200` produces. -/
def settleResult : ProgState :=
  { viewer_session :=
      { max_approved_chunks := 10, chunks_consumed := 3, total_spent := 3000
        approved_price_per_chunk := 1000, last_paid_chunk_index := none
        session_start := 100, last_activity := 200 }
    video :=
      { total_chunks := 100, price_per_chunk := 1000, is_active := true
        total_sessions := 1, total_chunks_served := 3 }
    creator_earnings := { total_earned := 2925, total_sessions := 1, total_chunks_sold := 3 }
    platform :=
      { platform_fee_basis_points := 250, min_price_per_chunk := 1000
        total_videos := 1, total_sessions := 1, total_revenue := 75 }
    viewer_token_amount := 997000
    creator_token_amount := 2925
    platform_token_amount := 75
    delegated_amount := 7000 }

/-- An open session on a 3-chunk video, nothing consumed yet.  Index 5 is both
a skip (not the successor of the marker) and out of bounds. -/
def c2State : ProgState :=
  { baseState with
    viewer_session := { baseState.viewer_session with
      max_approved_chunks := 10
      session_start := 100
      last_activity := 100 }
    video := { baseState.video with total_chunks := 3 } }

/-- A session whose locked price (1000) no longer matches the video price
(2000), queried long after expiry. -/
def c5State : ProgState :=
  { baseState with
    viewer_session := { baseState.viewer_session with
      max_approved_chunks := 10
      approved_price_per_chunk := 1000
      session_start := 100
      last_activity := 100 }
    video := { baseState.video with price_per_chunk := 2000 } }

/-- An open, current session whose locked price (1000) differs from the
video's current price (2000). -/
def c5Open : ProgState :=
  { openState with video := { openState.video with price_per_chunk := 2000 } }

/-- A platform whose `platform_fee_basis_points` field carries the largest
`u16` value; used to exercise the narrowing cast of
`calculate_platform_fee`. -/
def c9Platform : Platform :=
  { platform_fee_basis_points := 65535, min_price_per_chunk := 0
    total_videos := 0, total_sessions := 0, total_revenue := 0 }

/-- A 2-chunk video under the usual platform, with a viewer rich enough to
approve 1000 chunks. -/
def c10Initial : ProgState :=
  { baseState with
    video := { baseState.video with total_chunks := 2 }
    viewer_token_amount := 2000000 }

/-! Section: Success characterisations of the embedded primitives -/

theorem except_bind_ok {α β : Type} {x : Except StreamingError α}
    {f : α → Except StreamingError β} {b : β} :
    x >>= f = .ok b ↔ ∃ a, x = .ok a ∧ f a = .ok b := by
  cases x <;> simp [Bind.bind, Except.bind]

theorem require_ok {c : Prop} [Decidable c] {e : StreamingError} {u : Unit} :
    require c e = .ok u ↔ c := by
  unfold require; split <;> simp_all

theorem except_pure_def {α : Type} (a : α) :
    (pure a : Except StreamingError α) = .ok a := rfl

theorem except_pure_ok {α : Type} {a b : α} :
    (pure a : Except StreamingError α) = .ok b ↔ b = a := by
  constructor
  · intro h; cases h; rfl
  · intro h; cases h; rfl

theorem checked_add_u32_ok {a b v : Nat} :
    checked_add_u32 a b = .ok v ↔ a + b < U32_SIZE ∧ v = a + b := by
  unfold checked_add_u32
  split <;> rename_i hc <;> simp [hc, eq_comm]

theorem checked_add_u64_ok {a b v : Nat} :
    checked_add_u64 a b = .ok v ↔ a + b < U64_SIZE ∧ v = a + b := by
  unfold checked_add_u64
  split <;> rename_i hc <;> simp [hc, eq_comm]

theorem checked_mul_u128_ok {a b v : Nat} :
    checked_mul_u128 a b = .ok v ↔ a * b < U128_SIZE ∧ v = a * b := by
  unfold checked_mul_u128
  split <;> rename_i hc <;> simp [hc, eq_comm]

theorem checked_sub_u64_ok {a b v : Nat} :
    checked_sub_u64 a b = .ok v ↔ b ≤ a ∧ v = a - b := by
  unfold checked_sub_u64
  split <;> rename_i hc <;> simp [hc, eq_comm]

theorem u64_try_from_ok {a v : Nat} :
    u64_try_from a = .ok v ↔ a < U64_SIZE ∧ v = a := by
  unfold u64_try_from
  split <;> rename_i hc <;> simp [hc, eq_comm]

theorem calculate_platform_fee_ok {p : Platform} {amount v : Nat} :
    p.calculate_platform_fee amount = .ok v ↔
      amount * p.platform_fee_basis_points < U128_SIZE ∧
      v = amount * p.platform_fee_basis_points / BASIS_POINTS % U64_SIZE := by
  unfold Platform.calculate_platform_fee
  split <;> rename_i hc <;> simp [hc, eq_comm]

theorem spl_transfer_delegated_ok {source dest delegated amt : Nat}
    {v : Nat × Nat × Nat} :
    spl_transfer_delegated source dest delegated amt = .ok v ↔
      amt ≤ source ∧ amt ≤ delegated ∧
      v = (source - amt, dest + amt, delegated - amt) := by
  unfold spl_transfer_delegated
  split <;> rename_i hc <;> simp_all
  exact eq_comm

theorem transfer_platform_fee_ok {vb pb d fee : Nat} {v : Nat × Nat × Nat} :
    transfer_platform_fee vb pb d fee = .ok v ↔
      fee ≤ vb ∧ fee ≤ d ∧ v = (vb - fee, pb + fee, d - fee) := by
  unfold transfer_platform_fee
  split <;> rename_i hc
  · exact spl_transfer_delegated_ok
  · have hfee : fee = 0 := by omega
    subst hfee
    simp [except_pure_def, eq_comm]

theorem except_error_bind {α β : Type} (e : StreamingError)
    (f : α → Except StreamingError β) :
    (Except.error e : Except StreamingError α) >>= f = .error e := rfl

theorem except_ok_bind {α β : Type} (a : α) (f : α → Except StreamingError β) :
    (Except.ok a : Except StreamingError α) >>= f = f a := rfl

theorem require_true {c : Prop} [Decidable c] (h : c) (e : StreamingError) :
    require c e = .ok () := by
  simp [require, h]

theorem require_false {c : Prop} [Decidable c] (h : ¬ c) (e : StreamingError) :
    require c e = .error e := by
  simp [require, h]

theorem bump_session_totals_ok {c : Prop} [Decidable c] {vs es : Nat}
    {v : Nat × Nat} :
    bump_session_totals c vs es = .ok v ↔
      (c ∧ vs + 1 < U64_SIZE ∧ es + 1 < U64_SIZE ∧ v = (vs + 1, es + 1)) ∨
      (¬ c ∧ v = (vs, es)) := by
  unfold bump_session_totals checked_add_u64
  split <;> rename_i hc
  · split <;> rename_i h1
    · split <;> rename_i h2
      · simp [Bind.bind, Except.bind, except_pure_def, hc, h1, h2, eq_comm]
      · simp [Bind.bind, Except.bind, hc, h1, h2]
    · simp [Bind.bind, Except.bind, hc, h1]
  · simp [except_pure_def, hc, eq_comm]

end Solplay

namespace Solplay

/-- Claim C1: each core operation preserves `chunks_consumed ≤ max_approved_chunks`. -/
theorem claim_c1_consumed_le_ceiling (st : ProgState)
    (max_chunks chunk_index chunk_count : Nat) (ts now : Int)
    (hinv : ConsumedLeCeiling st) :
    (∀ st', approve_streaming_delegate st max_chunks now = .ok st' → ConsumedLeCeiling st') ∧
    (∀ st', pay_for_chunk st chunk_index now = .ok st' → ConsumedLeCeiling st') ∧
    (∀ st', settle_session st chunk_count ts now = .ok st' → ConsumedLeCeiling st') ∧
    (∀ st', close_viewer_session st = .ok st' → ConsumedLeCeiling st') := by
  refine ⟨?_, ?_, ?_, ?_⟩
  · intro st' h
    rw [approve_streaming_delegate] at h
    simp only [except_bind_ok, require_ok, except_pure_ok, exists_const] at h
    obtain ⟨hact, hmax, h⟩ := h
    split at h
    · simp only [except_bind_ok, require_ok, except_pure_ok, exists_const] at h
      obtain ⟨a, ha, ps, hps, y, hy, amt, hamt, hbal, hst'⟩ := h
      subst hy
      subst hst'
      simp [ConsumedLeCeiling]
    · simp only [except_bind_ok, require_ok, except_pure_ok, exists_const] at h
      obtain ⟨hexp, hinact, nm, hnm, a, ha, y, hy, amt, hamt, hbal, hst'⟩ := h
      subst hy
      subst hst'
      simp only [checked_add_u32_ok] at hnm
      obtain ⟨-, rfl⟩ := hnm
      simp only [ConsumedLeCeiling] at *
      omega
  · intro st' h
    rw [pay_for_chunk] at h
    simp only [except_bind_ok, require_ok, except_pure_ok, exists_const] at h
    obtain ⟨hact, hexp, hinact, hidx, happ, hseq, hprice, hbal, fee, hfee,
      ca, hca, tr1, htr1, tr2, htr2, nts, hnts, ncs, hncs,
      nte, hnte, nsold, hnsold, sess, hsess, rev, hrev, hst'⟩ := h
    subst hst'
    simp only [ConsumedLeCeiling, ViewerSession.update_activity,
      ViewerSession.has_approval_remaining, decide_eq_true_eq] at *
    omega
  · intro st' h
    rw [settle_session] at h
    simp only [except_bind_ok, require_ok, except_pure_ok, exists_const] at h
    obtain ⟨hact, hcnt, hexp, hts1, hts2, ntc, hntc, hle, tp, htp, tpu, htpu,
      hbal, fee, hfee, ca, hca, tr1, htr1, tr2, htr2, nts, hnts, ncs, hncs,
      nte, hnte, nsold, hnsold, sess, hsess, rev, hrev, hst'⟩ := h
    subst hst'
    simp only [checked_add_u32_ok] at hntc
    obtain ⟨-, rfl⟩ := hntc
    simp only [ConsumedLeCeiling] at *
    exact hle
  · intro st' h
    simp only [close_viewer_session] at h
    injection h with h
    exact h ▸ hinv

/-- Claim C1 witness: the invariant holds of the concrete open session and is
preserved by a concrete successful `pay_for_chunk`. -/
theorem claim_c1_witness :
    ConsumedLeCeiling openState ∧ ConsumedLeCeiling payResult :=
  ⟨by decide,
   (claim_c1_consumed_le_ceiling openState 10 0 3 150 200 (by decide)).2.1
     payResult (by decide)⟩

end Solplay

namespace Solplay

/-- Claim C2 (amended): `pay_for_chunk` succeeds only on the strict successor of
the last-paid marker (index 0 when none), and an out-of-sequence index is
rejected with `OutOfSequenceChunk` whenever the validations that precede the
sequential check pass; any rejection aborts the transaction with no state
change.  (As literally stated the claim is refuted by
`claim_c2_counterexample`: an out-of-sequence index that is also out of
bounds draws `InvalidChunkIndex` instead.) -/
theorem claim_c2_sequential_enforcement (st : ProgState) (chunk_index : Nat)
    (now : Int) :
    (∀ st', pay_for_chunk st chunk_index now = .ok st' →
       st.viewer_session.is_next_chunk_sequential chunk_index = true) ∧
    (st.video.is_active = true →
     st.viewer_session.is_expired now = false →
     st.viewer_session.is_inactive now = false →
     chunk_index < st.video.total_chunks →
     st.viewer_session.has_approval_remaining = true →
     st.viewer_session.is_next_chunk_sequential chunk_index = false →
     pay_for_chunk st chunk_index now = .error .OutOfSequenceChunk) := by
  constructor
  · intro st' h
    rw [pay_for_chunk] at h
    simp only [except_bind_ok, require_ok, except_pure_ok, exists_const] at h
    exact h.2.2.2.2.2.1
  · intro hact hexp hinact hidx happ hseq
    have hseq' : ¬ st.viewer_session.is_next_chunk_sequential chunk_index = true := by
      simp [hseq]
    rw [pay_for_chunk]
    simp only [require_true hact, require_true hexp, require_true hinact,
      require_true hidx, require_true happ, require_false hseq',
      except_ok_bind, except_error_bind]

/-- Claim C2 counterexample: on a 3-chunk video with no chunk paid yet, index 5
is a skip (not the strict successor), yet the rejection error is
`InvalidChunkIndex`, not the out-of-sequence error the claim names. -/
theorem claim_c2_counterexample :
    c2State.viewer_session.is_next_chunk_sequential 5 = false ∧
    pay_for_chunk c2State 5 100 = .error .InvalidChunkIndex ∧
    StreamingError.InvalidChunkIndex ≠ StreamingError.OutOfSequenceChunk := by
  decide

/-- Claim C2 witness: a successful first payment carries index 0, and a skipped
in-bounds index is rejected with `OutOfSequenceChunk`. -/
theorem claim_c2_witness :
    openState.viewer_session.is_next_chunk_sequential 0 = true ∧
    pay_for_chunk c2State 2 100 = .error .OutOfSequenceChunk :=
  ⟨(claim_c2_sequential_enforcement openState 0 200).1 payResult (by decide),
   (claim_c2_sequential_enforcement c2State 2 100).2 (by decide) (by decide)
     (by decide) (by decide) (by decide) (by decide)⟩

/-- Claim C5 (amended): when the video's current price differs from the
session's locked price, `pay_for_chunk` can never succeed (so no transfer or
state mutation happens), and the rejection error is
`PriceChangedSinceApproval` whenever the validations that precede the price
check pass.  (As literally stated the claim is refuted by
`claim_c5_counterexample`: on an expired session with a price mismatch the
error is `SessionExpired`.) -/
theorem claim_c5_price_lock (st : ProgState) (chunk_index : Nat) (now : Int)
    (hmismatch : st.video.price_per_chunk ≠ st.viewer_session.approved_price_per_chunk) :
    (∀ st', pay_for_chunk st chunk_index now ≠ .ok st') ∧
    (st.video.is_active = true →
     st.viewer_session.is_expired now = false →
     st.viewer_session.is_inactive now = false →
     chunk_index < st.video.total_chunks →
     st.viewer_session.has_approval_remaining = true →
     st.viewer_session.is_next_chunk_sequential chunk_index = true →
     pay_for_chunk st chunk_index now = .error .PriceChangedSinceApproval) := by
  constructor
  · intro st' h
    rw [pay_for_chunk] at h
    simp only [except_bind_ok, require_ok, except_pure_ok, exists_const] at h
    exact hmismatch h.2.2.2.2.2.2.1
  · intro hact hexp hinact hidx happ hseq
    rw [pay_for_chunk]
    simp only [require_true hact, require_true hexp, require_true hinact,
      require_true hidx, require_true happ, require_true hseq,
      require_false hmismatch, except_ok_bind, except_error_bind]

/-- Claim C5 counterexample: an expired session with a price mismatch is
rejected with `SessionExpired`, not the price-changed error the claim
names. -/
theorem claim_c5_counterexample :
    c5State.video.price_per_chunk ≠ c5State.viewer_session.approved_price_per_chunk ∧
    pay_for_chunk c5State 0 100000 = .error .SessionExpired ∧
    StreamingError.SessionExpired ≠ StreamingError.PriceChangedSinceApproval := by
  decide

/-- Claim C5 witness: on an open, current session whose video price moved from
1000 to 2000, payment of the next due chunk cannot succeed and draws
`PriceChangedSinceApproval`. -/
theorem claim_c5_witness :
    pay_for_chunk c5Open 0 200 ≠ .ok payResult ∧
    pay_for_chunk c5Open 0 200 = .error .PriceChangedSinceApproval :=
  ⟨(claim_c5_price_lock c5Open 0 200 (by decide)).1 payResult,
   (claim_c5_price_lock c5Open 0 200 (by decide)).2 (by decide) (by decide)
     (by decide) (by decide) (by decide) (by decide)⟩

end Solplay

namespace Solplay

/-- Claim C3: a successful `approve_streaming_delegate` always delegates the
total outstanding obligation `(ceiling after update − consumed) * current
video price`, computed without overflow and fitting in `u64` — never an
increment over the previous delegated amount.  (On a new session this is
`max_chunks * price`; on re-approval the increased ceiling minus consumed
chunks, times the price.) -/
theorem claim_c3_delegation_total (st : ProgState) (max_chunks : Nat)
    (now : Int) (st' : ProgState) (hinv : ConsumedLeCeiling st)
    (h : approve_streaming_delegate st max_chunks now = .ok st') :
    st'.delegated_amount =
      (st'.viewer_session.max_approved_chunks -
        st'.viewer_session.chunks_consumed) * st.video.price_per_chunk ∧
    st'.delegated_amount < U64_SIZE := by
  rw [approve_streaming_delegate] at h
  simp only [except_bind_ok, require_ok, except_pure_ok, exists_const] at h
  obtain ⟨hact, hmax, h⟩ := h
  split at h
  · simp only [except_bind_ok, require_ok, except_pure_ok, exists_const] at h
    obtain ⟨a, ha, ps, hps, y, hy, amt, hamt, hbal, hst'⟩ := h
    subst hy
    subst hst'
    simp only [checked_mul_u128_ok] at ha
    obtain ⟨-, rfl⟩ := ha
    simp only [u64_try_from_ok] at hamt
    obtain ⟨hlt, rfl⟩ := hamt
    exact ⟨by simp [Nat.mul_comm], hlt⟩
  · simp only [except_bind_ok, require_ok, except_pure_ok, exists_const] at h
    obtain ⟨hexp, hinact, nm, hnm, a, ha, y, hy, amt, hamt, hbal, hst'⟩ := h
    subst hy
    subst hst'
    simp only [checked_mul_u128_ok] at ha
    obtain ⟨-, rfl⟩ := ha
    simp only [u64_try_from_ok] at hamt
    obtain ⟨hlt, rfl⟩ := hamt
    exact ⟨by simp [Nat.mul_comm], hlt⟩

/-- Claim C3 witness: approving 10 chunks on the fresh base session delegates
`(10 − 0) * 1000 = 10000`, under the `u64` bound. -/
theorem claim_c3_witness :
    openState.delegated_amount =
      (openState.viewer_session.max_approved_chunks -
        openState.viewer_session.chunks_consumed) * baseState.video.price_per_chunk ∧
    openState.delegated_amount < U64_SIZE :=
  claim_c3_delegation_total baseState 10 100 openState (by decide) (by decide)

/-- Claim C6: `settle_session` rejects a zero chunk count, a batch that would
push consumption above the ceiling, and a settlement timestamp before the
session start or after the current time; rejection aborts the transaction, so
no transfer happens and no account field changes. -/
theorem claim_c6_settle_validations (st : ProgState) (chunk_count : Nat)
    (ts now : Int)
    (h : chunk_count = 0 ∨
         st.viewer_session.max_approved_chunks <
           st.viewer_session.chunks_consumed + chunk_count ∨
         ts < st.viewer_session.session_start ∨ now < ts) :
    ∀ st', settle_session st chunk_count ts now ≠ .ok st' := by
  intro st' hok
  rw [settle_session] at hok
  simp only [except_bind_ok, require_ok, except_pure_ok, exists_const] at hok
  obtain ⟨hact, hcnt, hexp, hts1, hts2, ntc, hntc, hle, -⟩ := hok
  simp only [checked_add_u32_ok] at hntc
  obtain ⟨-, rfl⟩ := hntc
  rcases h with h | h | h | h <;> omega

/-- Claim C6 witness: a zero-count batch on the open session is rejected. -/
theorem claim_c6_witness :
    settle_session openState 0 150 200 ≠ .ok settleResult :=
  claim_c6_settle_validations openState 0 150 200 (Or.inl rfl) settleResult

/-- Claim C8: batch settlement never writes the strict-sequence marker — a
successful `settle_session` leaves `last_paid_chunk_index` exactly as it was —
while a successful `pay_for_chunk` sets it to the chunk index just paid. -/
theorem claim_c8_marker_frame (st : ProgState) (chunk_index chunk_count : Nat)
    (ts now : Int) :
    (∀ st', settle_session st chunk_count ts now = .ok st' →
       st'.viewer_session.last_paid_chunk_index =
         st.viewer_session.last_paid_chunk_index) ∧
    (∀ st', pay_for_chunk st chunk_index now = .ok st' →
       st'.viewer_session.last_paid_chunk_index = some chunk_index) := by
  constructor
  · intro st' h
    rw [settle_session] at h
    simp only [except_bind_ok, require_ok, except_pure_ok, exists_const] at h
    obtain ⟨hact, hcnt, hexp, hts1, hts2, ntc, hntc, hle, tp, htp, tpu, htpu,
      hbal, fee, hfee, ca, hca, tr1, htr1, tr2, htr2, nts, hnts, ncs, hncs,
      nte, hnte, nsold, hnsold, sess, hsess, rev, hrev, hst'⟩ := h
    subst hst'
    rfl
  · intro st' h
    rw [pay_for_chunk] at h
    simp only [except_bind_ok, require_ok, except_pure_ok, exists_const] at h
    obtain ⟨hact, hexp, hinact, hidx, happ, hseq, hprice, hbal, fee, hfee,
      ca, hca, tr1, htr1, tr2, htr2, nts, hnts, ncs, hncs,
      nte, hnte, nsold, hnsold, sess, hsess, rev, hrev, hst'⟩ := h
    subst hst'
    rfl

/-- Claim C8 witness: the concrete batch settlement keeps the marker at `none`;
the concrete unit payment sets it to `some 0`. -/
theorem claim_c8_witness :
    settleResult.viewer_session.last_paid_chunk_index =
      openState.viewer_session.last_paid_chunk_index ∧
    payResult.viewer_session.last_paid_chunk_index = some 0 :=
  ⟨(claim_c8_marker_frame openState 0 3 150 200).1 settleResult (by decide),
   (claim_c8_marker_frame openState 0 3 150 200).2 payResult (by decide)⟩

end Solplay

namespace Solplay

/-- With a fee rate of at most 10000 basis points the floored fee never
exceeds the amount. -/
theorem fee_le_amount {bps amount : Nat} (hrate : bps ≤ BASIS_POINTS) :
    amount * bps / BASIS_POINTS ≤ amount :=
  calc amount * bps / BASIS_POINTS
      ≤ amount * BASIS_POINTS / BASIS_POINTS :=
        Nat.div_le_div_right (Nat.mul_le_mul (Nat.le_refl amount) hrate)
    _ = amount := Nat.mul_div_cancel amount (by decide)

/-- Claim C4: for any fee rate ≤ 10000 bps the platform fee is
`floor(amount * rate / 10000)` (never rounded up), and on every successful
settlement — single-unit or batch — the creator receives `amount − fee`, the
platform receives `fee`, and `fee + creator_share = amount`. -/
theorem claim_c4_fee_floor_and_split (st : ProgState) (ci cc : Nat)
    (ts now : Int)
    (hrate : st.platform.platform_fee_basis_points ≤ 10000) :
    (∀ amount, amount < U64_SIZE →
       st.platform.calculate_platform_fee amount =
         .ok (amount * st.platform.platform_fee_basis_points / BASIS_POINTS) ∧
       amount * st.platform.platform_fee_basis_points / BASIS_POINTS ≤ amount) ∧
    (st.video.price_per_chunk < U64_SIZE →
     ∀ st', pay_for_chunk st ci now = .ok st' →
       st'.creator_token_amount = st.creator_token_amount +
         (st.video.price_per_chunk -
           st.video.price_per_chunk * st.platform.platform_fee_basis_points / BASIS_POINTS) ∧
       st'.platform_token_amount = st.platform_token_amount +
         st.video.price_per_chunk * st.platform.platform_fee_basis_points / BASIS_POINTS ∧
       st.video.price_per_chunk * st.platform.platform_fee_basis_points / BASIS_POINTS +
         (st.video.price_per_chunk -
           st.video.price_per_chunk * st.platform.platform_fee_basis_points / BASIS_POINTS) =
         st.video.price_per_chunk) ∧
    (∀ st', settle_session st cc ts now = .ok st' →
       st'.creator_token_amount = st.creator_token_amount +
         (st.viewer_session.approved_price_per_chunk * cc -
           st.viewer_session.approved_price_per_chunk * cc *
             st.platform.platform_fee_basis_points / BASIS_POINTS) ∧
       st'.platform_token_amount = st.platform_token_amount +
         st.viewer_session.approved_price_per_chunk * cc *
           st.platform.platform_fee_basis_points / BASIS_POINTS ∧
       st.viewer_session.approved_price_per_chunk * cc *
         st.platform.platform_fee_basis_points / BASIS_POINTS +
         (st.viewer_session.approved_price_per_chunk * cc -
           st.viewer_session.approved_price_per_chunk * cc *
             st.platform.platform_fee_basis_points / BASIS_POINTS) =
         st.viewer_session.approved_price_per_chunk * cc) := by
  have hrate' : st.platform.platform_fee_basis_points ≤ BASIS_POINTS := hrate
  refine ⟨?_, ?_, ?_⟩
  · intro amount hamount
    have hfle := @fee_le_amount st.platform.platform_fee_basis_points amount hrate'
    refine ⟨?_, hfle⟩
    rw [Platform.calculate_platform_fee]
    rw [if_pos]
    · rw [Nat.mod_eq_of_lt (lt_of_le_of_lt hfle hamount)]
    · calc amount * st.platform.platform_fee_basis_points
          ≤ U64_SIZE * BASIS_POINTS :=
            Nat.mul_le_mul (Nat.le_of_lt hamount) hrate'
        _ < U128_SIZE := by decide
  · intro hp st' h
    rw [pay_for_chunk] at h
    simp only [except_bind_ok, require_ok, except_pure_ok, exists_const] at h
    obtain ⟨hact, hexp, hinact, hidx, happ, hseq, hprice, hbal, fee, hfee,
      ca, hca, tr1, htr1, tr2, htr2, nts, hnts, ncs, hncs,
      nte, hnte, nsold, hnsold, sess, hsess, rev, hrev, hst'⟩ := h
    subst hst'
    simp only [calculate_platform_fee_ok] at hfee
    obtain ⟨hmul, hfeeEq⟩ := hfee
    have hfle := @fee_le_amount st.platform.platform_fee_basis_points st.video.price_per_chunk hrate'
    have hfeeEq' : fee =
        st.video.price_per_chunk * st.platform.platform_fee_basis_points / BASIS_POINTS := by
      rw [hfeeEq, Nat.mod_eq_of_lt (lt_of_le_of_lt hfle hp)]
    subst hfeeEq'
    simp only [checked_sub_u64_ok] at hca
    obtain ⟨hfle2, rfl⟩ := hca
    simp only [spl_transfer_delegated_ok] at htr1
    obtain ⟨hv1, hd1, rfl⟩ := htr1
    simp only [transfer_platform_fee_ok] at htr2
    obtain ⟨hv2, hd2, rfl⟩ := htr2
    refine ⟨rfl, rfl, ?_⟩
    omega
  · intro st' h
    rw [settle_session] at h
    simp only [except_bind_ok, require_ok, except_pure_ok, exists_const] at h
    obtain ⟨hact, hcnt, hexp, hts1, hts2, ntc, hntc, hle, tp, htp, tpu, htpu,
      hbal, fee, hfee, ca, hca, tr1, htr1, tr2, htr2, nts, hnts, ncs, hncs,
      nte, hnte, nsold, hnsold, sess, hsess, rev, hrev, hst'⟩ := h
    subst hst'
    simp only [checked_mul_u128_ok] at htp
    obtain ⟨-, rfl⟩ := htp
    simp only [u64_try_from_ok] at htpu
    obtain ⟨htplt, rfl⟩ := htpu
    simp only [calculate_platform_fee_ok] at hfee
    obtain ⟨hmul, hfeeEq⟩ := hfee
    have hfle := @fee_le_amount st.platform.platform_fee_basis_points
      (st.viewer_session.approved_price_per_chunk * cc) hrate'
    have hfeeEq' : fee = st.viewer_session.approved_price_per_chunk * cc *
        st.platform.platform_fee_basis_points / BASIS_POINTS := by
      rw [hfeeEq, Nat.mod_eq_of_lt (lt_of_le_of_lt hfle htplt)]
    subst hfeeEq'
    simp only [checked_sub_u64_ok] at hca
    obtain ⟨hfle2, rfl⟩ := hca
    simp only [spl_transfer_delegated_ok] at htr1
    obtain ⟨hv1, hd1, rfl⟩ := htr1
    simp only [transfer_platform_fee_ok] at htr2
    obtain ⟨hv2, hd2, rfl⟩ := htr2
    refine ⟨rfl, rfl, ?_⟩
    omega

/-- Claim C4 witness: at rate 250 bps, the fee on amount 1000 is exactly
`1000 * 250 / 10000 = 25` and it never exceeds the amount. -/
theorem claim_c4_witness :
    openState.platform.calculate_platform_fee 1000 =
      .ok (1000 * openState.platform.platform_fee_basis_points / BASIS_POINTS) ∧
    1000 * openState.platform.platform_fee_basis_points / BASIS_POINTS ≤ 1000 :=
  (claim_c4_fee_floor_and_split openState 0 3 150 200 (by decide)).1 1000 (by decide)

end Solplay

namespace Solplay

/-- Claim C7: every successful batch settlement is priced at the session's
locked `approved_price_per_chunk` — the payment is `locked_price *
chunk_count`, it fits in `u64` (overflow-checked narrow of the 128-bit
product), and the video's current `price_per_chunk` plays no role; an expired
session can never settle, while a session that is merely inactive (past the
1-hour window but inside the 24-hour expiry window) still can, as the
concrete state `openState` at time 4000 shows. -/
theorem claim_c7_locked_price_and_inactivity (st : ProgState)
    (chunk_count : Nat) (ts now : Int) :
    (∀ st', settle_session st chunk_count ts now = .ok st' →
       st.viewer_session.approved_price_per_chunk * chunk_count < U64_SIZE ∧
       st'.viewer_session.total_spent = st.viewer_session.total_spent +
         st.viewer_session.approved_price_per_chunk * chunk_count ∧
       st'.viewer_token_amount = st.viewer_token_amount -
         st.viewer_session.approved_price_per_chunk * chunk_count) ∧
    (st.viewer_session.is_expired now = true →
       ∀ st', settle_session st chunk_count ts now ≠ .ok st') ∧
    (openState.viewer_session.is_inactive 4000 = true ∧
     openState.viewer_session.is_expired 4000 = false ∧
     ∃ st', settle_session openState 3 150 4000 = .ok st') := by
  refine ⟨?_, ?_, by decide, by decide, ⟨_, rfl⟩⟩
  · intro st' h
    rw [settle_session] at h
    simp only [except_bind_ok, require_ok, except_pure_ok, exists_const] at h
    obtain ⟨hact, hcnt, hexp, hts1, hts2, ntc, hntc, hle, tp, htp, tpu, htpu,
      hbal, fee, hfee, ca, hca, tr1, htr1, tr2, htr2, nts, hnts, ncs, hncs,
      nte, hnte, nsold, hnsold, sess, hsess, rev, hrev, hst'⟩ := h
    subst hst'
    simp only [checked_mul_u128_ok] at htp
    obtain ⟨-, rfl⟩ := htp
    simp only [u64_try_from_ok] at htpu
    obtain ⟨htplt, rfl⟩ := htpu
    refine ⟨htplt, ?_, ?_⟩
    · simp only [checked_add_u64_ok] at hnts
      obtain ⟨-, rfl⟩ := hnts
      rfl
    · simp only [checked_sub_u64_ok] at hca
      obtain ⟨hfle, rfl⟩ := hca
      simp only [spl_transfer_delegated_ok] at htr1
      obtain ⟨hv1, hd1, rfl⟩ := htr1
      simp only [transfer_platform_fee_ok] at htr2
      obtain ⟨hv2, hd2, rfl⟩ := htr2
      simp only []
      omega
  · intro hexp st' h
    rw [settle_session] at h
    simp only [except_bind_ok, require_ok, except_pure_ok, exists_const] at h
    obtain ⟨-, -, hexp', -⟩ := h
    simp [hexp] at hexp'

/-- Claim C7 witness: the concrete batch of 3 chunks on `openState` is priced at
the locked 1000 per chunk: 3000 spent, 3000 withdrawn. -/
theorem claim_c7_witness :
    openState.viewer_session.approved_price_per_chunk * 3 < U64_SIZE ∧
    settleResult.viewer_session.total_spent = openState.viewer_session.total_spent +
      openState.viewer_session.approved_price_per_chunk * 3 ∧
    settleResult.viewer_token_amount = openState.viewer_token_amount -
      openState.viewer_session.approved_price_per_chunk * 3 :=
  (claim_c7_locked_price_and_inactivity openState 3 150 200).1 settleResult (by decide)

/-- Claim C9 counterexample: with the maximal `u16` fee rate 65535 and amount
`2^64 − 1`, the computed fee does not fit in `u64`, yet
`calculate_platform_fee` returns `Ok` with the value silently truncated
modulo `2^64` instead of failing with an overflow error. -/
theorem claim_c9_counterexample :
    U64_SIZE ≤ (U64_SIZE - 1) * c9Platform.platform_fee_basis_points / BASIS_POINTS ∧
    c9Platform.calculate_platform_fee (U64_SIZE - 1) =
      .ok ((U64_SIZE - 1) * c9Platform.platform_fee_basis_points / BASIS_POINTS
        % U64_SIZE) ∧
    (U64_SIZE - 1) * c9Platform.platform_fee_basis_points / BASIS_POINTS % U64_SIZE ≠
      (U64_SIZE - 1) * c9Platform.platform_fee_basis_points / BASIS_POINTS := by
  decide

/-- Claim C9 (amended): the 128-bit multiply inside `calculate_platform_fee` is
overflow-checked, but the narrowing back to `u64` is an unchecked `as` cast
that truncates modulo `2^64`; for every fee rate ≤ 10000 bps (all platforms
reachable through `initialize`, which caps the rate at 1000 bps) the fee is
at most the amount, so it fits in `u64` and the cast is value-preserving. -/
theorem claim_c9_fee_narrowing (p : Platform) (amount : Nat)
    (hrate : p.platform_fee_basis_points ≤ 10000) (hamount : amount < U64_SIZE) :
    p.calculate_platform_fee amount =
      .ok (amount * p.platform_fee_basis_points / BASIS_POINTS) ∧
    amount * p.platform_fee_basis_points / BASIS_POINTS < U64_SIZE := by
  have hrate' : p.platform_fee_basis_points ≤ BASIS_POINTS := hrate
  have hfle := @fee_le_amount p.platform_fee_basis_points amount hrate'
  have hflt := lt_of_le_of_lt hfle hamount
  refine ⟨?_, hflt⟩
  rw [Platform.calculate_platform_fee]
  rw [if_pos]
  · rw [Nat.mod_eq_of_lt hflt]
  · calc amount * p.platform_fee_basis_points
        ≤ U64_SIZE * BASIS_POINTS := Nat.mul_le_mul (Nat.le_of_lt hamount) hrate'
      _ < U128_SIZE := by decide

/-- Claim C9 witness: at 250 bps and amount 1000 the narrow is value-preserving
and the fee is 25 < 2^64. -/
theorem claim_c9_witness :
    baseState.platform.platform_fee_basis_points ≤ 10000 ∧ (1000 : Nat) < U64_SIZE ∧
    (baseState.platform.calculate_platform_fee 1000 =
      .ok (1000 * baseState.platform.platform_fee_basis_points / BASIS_POINTS) ∧
     1000 * baseState.platform.platform_fee_basis_points / BASIS_POINTS < U64_SIZE) :=
  ⟨by decide, by decide,
   claim_c9_fee_narrowing baseState.platform 1000 (by decide) (by decide)⟩

/-- Claim C10: nothing bounds a session's cumulative consumption by the video's
`total_chunks`: a single approval of 1000 chunks on a 2-chunk video succeeds
(only the per-call 1..1000 cap is enforced), a batch settlement of 3 chunks
then succeeds and leaves `chunks_consumed = 3 > total_chunks = 2`, while the
per-unit path alone rejects an index beyond `total_chunks` with
`InvalidChunkIndex`. -/
theorem claim_c10_consumption_not_bounded_by_total_chunks :
    ∃ s1 s2, approve_streaming_delegate c10Initial 1000 100 = .ok s1 ∧
      s1.viewer_session.max_approved_chunks = 1000 ∧
      c10Initial.video.total_chunks = 2 ∧
      settle_session s1 3 100 100 = .ok s2 ∧
      s2.viewer_session.chunks_consumed = 3 ∧
      s2.video.total_chunks < s2.viewer_session.chunks_consumed ∧
      pay_for_chunk s1 2 100 = .error .InvalidChunkIndex ∧
      approve_streaming_delegate c10Initial 1001 100 =
        .error .MaxChunksPerApprovalExceeded ∧
      approve_streaming_delegate c10Initial 0 100 =
        .error .MaxChunksPerApprovalExceeded := by
  refine ⟨_, _, rfl, ?_, ?_, rfl, ?_, ?_, ?_, ?_, ?_⟩ <;> decide

end Solplay
